import Mathlib

/-!
Shallow embedding of the processing core of `src/iq-squelch.c` (ZMQ
multi-stream revision) and verification of its specified properties.

Modelling conventions:
  * A ZMQ frame is a `List Nat` of 16-bit elements (ushorts) in wire
    order.  The C code views a frame of `zframe_size` bytes as an
    `n × NUM_ZMQ_STREAMS` ushort matrix with
    `n = zframe_size / (2 * NUM_ZMQ_STREAMS)` and transposes it, so
    `full_data[k][t]` is wire element `t * 4 + k`.
  * Machine arithmetic is `Nat` with explicit `% 2^w` at each point
    where the C program can wrap: the `(uint8_t)` cast of the magnitude
    sum, the `uint32_t` product `block_size * block_threshold`, the
    `uint32_t` accumulators `acc` and `avg`, the `uint16_t`
    `num_elements` parameter of `emit_data`, and the `uint64_t`
    `position` counter.
  * The lead-in / trail-out padding emission in `run` is commented out
    in the source (`TODO: Reenable when working`), so the model emits
    nothing for it; `padding_blocks` is carried in the options record
    but, like `block_count`, is never consulted by the loop.
-/

/-- Configuration record mirroring the global `options` struct of the C
program (the fields consulted by `run`, plus the recognised-but-unused
`block_count` and `padding_blocks`).  File/socket handles and URLs are
I/O plumbing and are not part of the core model. -/
structure Options where
  autoMode : Bool
  blockCount : Nat
  blockSize : Nat
  blockThreshold : Nat
  offset : Nat
  paddingBlocks : Bool
  sampleThreshold : Nat
  verbose : Bool
  sendNullvec : Bool
  deriving DecidableEq, Repr

/-- Persistent state of the processing loop in `run`: the `triggered`
flag, the `avg` noise-floor estimate (`uint32_t`) and the `position`
byte counter (`uint64_t`, initialised to `options.offset`). -/
structure RunState where
  triggered : Bool
  avg : Nat
  position : Nat
  deriving DecidableEq, Repr

/-- Initial loop state of `run`: `triggered = false`, `avg = 0`,
`position = options.offset`. -/
def initState (offset : Nat) : RunState :=
  { triggered := false, avg := 0, position := offset }

/-- Wire element of channel 0 at time `t`: after the transpose,
`ch0[t]` is wire ushort `t * 4 + 0` (out-of-range reads default to 0;
the loop only reads in-range indices). -/
def ch0v (f : List Nat) (t : Nat) : Nat :=
  f.getD (4 * t) 0

/-- Wire element of channel `k` at time `t`: `full_data[k][t]` is wire
ushort `t * 4 + k`. -/
def fullDataAt (f : List Nat) (k t : Nat) : Nat :=
  f.getD (4 * t + k) 0

/-- Magnitude estimator of one ushort sample, exactly as in `run`:
`mag = (uint8_t)(abs((int16_t)(sample & 0xFF) - INT8_MAX) +
abs((int16_t)(sample >> 8) - INT8_MAX))`.  The low byte is I, the high
byte is Q, `INT8_MAX = 127`, and the final `(uint8_t)` cast reduces the
sum modulo 256. -/
def mag (sample : Nat) : Nat :=
  let s := sample % 65536
  ((((s % 256 : Nat) : Int) - 127).natAbs + (((s / 256 : Nat) : Int) - 127).natAbs) % 256

/-- The block of channel-0 samples classified at element offset `d`:
`gsl_vector_ushort_subvector(&ch0.vector, elements_done, block_size)`. -/
def blockData (opts : Options) (f : List Nat) (d : Nat) : List Nat :=
  (List.range opts.blockSize).map (fun t => ch0v f (d + t))

/-- The per-block `count` of samples with `mag > options.sample_threshold`
(strict comparison). -/
def countAbove (opts : Options) (blk : List Nat) : Nat :=
  blk.countP (fun s => decide (mag s > opts.sampleThreshold))

/-- The per-block accumulator `acc`: sum of magnitudes in a `uint32_t`,
hence reduced modulo `2^32`. -/
def accOf (blk : List Nat) : Nat :=
  ((blk.map mag).sum) % 4294967296

/-- The block threshold computed once in `run`:
`block_threshold = options.block_size * options.block_threshold / 100`.
The product is `uint32_t` arithmetic (hence `% 2^32`) and the division
is integer floor division. -/
def blockThresholdLimit (opts : Options) : Nat :=
  opts.blockSize * opts.blockThreshold % 4294967296 / 100

/-- Block verdict: `count > block_threshold` (strict). -/
def verdict (opts : Options) (blk : List Nat) : Bool :=
  decide (countAbove opts blk > blockThresholdLimit opts)

/-- The serialisation buffer built by `gsl_mat_emit_data` in
`COLUMN_MAJOR` order for the `all_channels` submatrix at element offset
`d`: `buf[c * rows + r] = full_data[r][d + c]` with `rows = 4` and
`columns = block_size`, i.e. element `j` is channel `j % 4` at time
`d + j / 4`. -/
def activeBuf (opts : Options) (f : List Nat) (d : Nat) : List Nat :=
  (List.range (4 * opts.blockSize)).map (fun j => fullDataAt f (j % 4) (d + j / 4))

/-- Emission of an active block: `emit_data` receives
`num_elements = rows * columns = 4 * block_size` through a `uint16_t`
parameter, so only `4 * block_size % 65536` elements are written. -/
def emitActive (opts : Options) (f : List Nat) (d : Nat) : List Nat :=
  (activeBuf opts f d).take (4 * opts.blockSize % 65536)

/-- Emission of the neutral block when `send_nullvec` is enabled: a
`block_size × 4` matrix filled with `0x7F7F = 32639`, serialised
`ROW_MAJOR` and truncated through the same `uint16_t` element count. -/
def emitNull (opts : Options) : List Nat :=
  (List.replicate (opts.blockSize * 4) 32639).take (opts.blockSize * 4 % 65536)

/-- One iteration of the inner `while (n >= options.block_size)` loop of
`run`, processing block index `i` (element offset `i * block_size`) of a
frame with `n0` time samples.  Returns the new state and the list of
emitted chunks.  Faithful points: the verdict is computed from channel 0
only; the padding emissions are commented out in the source and emit
nothing; the `avg` update runs on every inactive block when `auto_mode`
is set; `position += n * 2` uses the value of `n` after
`n -= block_size`, i.e. the samples remaining in the frame. -/
def stepBlock (opts : Options) (f : List Nat) (n0 i : Nat) (st : RunState) :
    RunState × List (List Nat) :=
  let d := i * opts.blockSize
  let blk := blockData opts f d
  let count := countAbove opts blk
  let acc := accOf blk
  let nRem := n0 - (i + 1) * opts.blockSize
  if count > blockThresholdLimit opts then
    ({ st with triggered := true,
               position := (st.position + nRem * 2) % 18446744073709551616 },
     [emitActive opts f d])
  else
    let avg2 := if opts.autoMode then ((st.avg + acc / opts.blockSize) % 4294967296) / 2
                else st.avg
    ({ triggered := false, avg := avg2,
       position := (st.position + nRem * 2) % 18446744073709551616 },
     if opts.sendNullvec then [emitNull opts] else [])

/-- Processing of one received frame: `n0 = zframe_size / (2 * 4)` time
samples; the inner loop consumes `n0 / block_size` whole blocks and the
remainder (`n0 % block_size` samples) is discarded when the frame is
destroyed. -/
def processFrame (opts : Options) (st : RunState) (f : List Nat) :
    RunState × List (List Nat) :=
  let n0 := f.length / 4
  (List.range (n0 / opts.blockSize)).foldl
    (fun pr i =>
      let r := stepBlock opts f n0 i pr.1
      (r.1, pr.2 ++ r.2))
    (st, [])

/-- The outer receive loop of `run` over a finite list of frames: state
is threaded from frame to frame, emissions are concatenated in order. -/
def runFrames (opts : Options) (st : RunState) (frames : List (List Nat)) :
    RunState × List (List Nat) :=
  frames.foldl
    (fun pr f =>
      let r := processFrame opts pr.1 f
      (r.1, pr.2 ++ r.2))
    (st, [])

/-- A frame truncated to its whole blocks: the first
`4 * (block_size * (n0 / block_size))` wire elements. -/
def truncFrame (bs : Nat) (f : List Nat) : List Nat :=
  f.take (4 * (bs * (f.length / 4 / bs)))

/-- Concrete configuration for exercising the classifier:
`block_size = 4`, `block_threshold = 50`, `sample_threshold = 10`. -/
def optsC1 : Options :=
  { autoMode := false, blockCount := 0, blockSize := 4, blockThreshold := 50,
    offset := 0, paddingBlocks := true, sampleThreshold := 10,
    verbose := false, sendNullvec := false }

/-- One frame of 4 time samples over 4 channels whose channel-0
magnitudes are `[50, 50, 0, 0]` (ushort `32689 = 0x7FB1` has magnitude
50, `32639 = 0x7F7F` has magnitude 0). -/
def frameC1 : List Nat :=
  [32689, 32639, 32639, 32639, 32689, 32639, 32639, 32639,
   32639, 32639, 32639, 32639, 32639, 32639, 32639, 32639]

/-- Configuration with `block_size = 1`, padding enabled (the default),
`send_nullvec` disabled. -/
def optsC2 : Options :=
  { autoMode := false, blockCount := 0, blockSize := 1, blockThreshold := 50,
    offset := 0, paddingBlocks := true, sampleThreshold := 10,
    verbose := false, sendNullvec := false }

/-- A frame of three one-sample blocks with channel-0 magnitudes
`[0, 50, 0]`: one active block surrounded by inactive blocks. -/
def frameC2 : List Nat :=
  [32639, 32639, 32639, 32639, 32689, 32639, 32639, 32639,
   32639, 32639, 32639, 32639]

/-- Configuration with auto mode enabled and `block_size = 1`. -/
def optsC4 : Options :=
  { autoMode := true, blockCount := 0, blockSize := 1, blockThreshold := 50,
    offset := 0, paddingBlocks := true, sampleThreshold := 10,
    verbose := false, sendNullvec := false }

/-- A frame of two one-sample blocks: channel-0 magnitudes `[50, 4]`,
i.e. an active block followed by an inactive block (ushort
`32643 = 0x7F83` has magnitude 4). -/
def frameC4 : List Nat :=
  [32689, 32639, 32639, 32639, 32643, 32639, 32639, 32639]

/-- Configuration with `block_size = 2` for the alignment witness. -/
def optsC7 : Options :=
  { autoMode := false, blockCount := 0, blockSize := 2, blockThreshold := 50,
    offset := 0, paddingBlocks := true, sampleThreshold := 10,
    verbose := false, sendNullvec := false }

/-- A frame of 2 time samples over 4 channels with distinct values. -/
def frameC7 : List Nat := [1, 2, 3, 4, 5, 6, 7, 8]

/-- Configuration with `block_size = 16384`, so that
`4 * block_size = 65536` overflows the `uint16_t` element count of
`emit_data`. -/
def optsC8 : Options :=
  { autoMode := false, blockCount := 0, blockSize := 16384, blockThreshold := 50,
    offset := 0, paddingBlocks := true, sampleThreshold := 10,
    verbose := false, sendNullvec := false }

/-- Small configuration (`block_size = 4`) for the emission-length
witness. -/
def optsC8w : Options :=
  { autoMode := false, blockCount := 0, blockSize := 4, blockThreshold := 50,
    offset := 0, paddingBlocks := true, sampleThreshold := 10,
    verbose := false, sendNullvec := false }

/-- Configuration with `block_size = 1` for the position-counter
evaluation. -/
def optsC9 : Options :=
  { autoMode := false, blockCount := 0, blockSize := 1, blockThreshold := 50,
    offset := 0, paddingBlocks := true, sampleThreshold := 10,
    verbose := false, sendNullvec := false }

/-- A frame holding exactly one whole block (`block_size = 1`, so one
time sample = 4 ushorts = 8 bytes of wire data), with an active
channel-0 sample. -/
def frameC9 : List Nat := [32689, 32639, 32639, 32639]

/-- Configuration whose 32-bit product `block_size * block_threshold`
overflows: `67108864 * 100 = 6710886400 ≥ 2^32`. -/
def optsC1w : Options :=
  { autoMode := false, blockCount := 0, blockSize := 67108864, blockThreshold := 100,
    offset := 0, paddingBlocks := true, sampleThreshold := 10,
    verbose := false, sendNullvec := false }

/-- A frame of `67108864` time samples over 4 channels, every wire
element the ushort `32689` (magnitude 50). -/
def frameC1w : List Nat := List.replicate 268435456 32689

/-! ## Helper lemmas about `stepBlock` and list indexing -/

/-- The `triggered` flag after one block iteration equals that block's
verdict, for every incoming state. -/
theorem stepBlock_triggered_eq (opts : Options) (f : List Nat) (n0 i : Nat) (st : RunState) :
    (stepBlock opts f n0 i st).1.triggered =
      verdict opts (blockData opts f (i * opts.blockSize)) := by
  simp only [stepBlock, verdict]
  split <;> simp_all

/-- The emissions of one block iteration do not depend on the incoming
state: active blocks emit the truncated all-channel buffer, inactive
blocks emit the neutral block exactly when `send_nullvec` is set. -/
theorem stepBlock_out_eq (opts : Options) (f : List Nat) (n0 i : Nat) (st : RunState) :
    (stepBlock opts f n0 i st).2 =
      if verdict opts (blockData opts f (i * opts.blockSize)) = true then
        [emitActive opts f (i * opts.blockSize)]
      else if opts.sendNullvec then [emitNull opts] else [] := by
  simp only [stepBlock, verdict]
  split <;> rename_i h
  · simp [h]
  · simp [h]

/-- The `avg` estimate after one block iteration: unchanged on active
blocks and when auto mode is off; otherwise the exponential fold of the
block's mean magnitude, in wrapped 32-bit arithmetic. -/
theorem stepBlock_avg_eq (opts : Options) (f : List Nat) (n0 i : Nat) (st : RunState) :
    (stepBlock opts f n0 i st).1.avg =
      if verdict opts (blockData opts f (i * opts.blockSize)) = true then st.avg
      else if opts.autoMode then
        ((st.avg + accOf (blockData opts f (i * opts.blockSize)) / opts.blockSize)
          % 4294967296) / 2
      else st.avg := by
  simp only [stepBlock, verdict]
  split <;> rename_i h
  · simp [h]
  · simp [h]

/-- Reading below the cut of a `take` agrees with the original list. -/
theorem getD_take_eq (l : List Nat) (m j : Nat) (h : j < m) :
    (l.take m).getD j 0 = l.getD j 0 := by
  rw [List.getD_eq_getElem?_getD, List.getD_eq_getElem?_getD,
    List.getElem?_take_of_lt h]

/-- A block whose window lies inside the first `m` time samples is
unchanged by truncating the frame to `4 * m` wire elements. -/
theorem blockData_take (opts : Options) (f : List Nat) (i m : Nat)
    (h : (i + 1) * opts.blockSize ≤ m) :
    blockData opts (f.take (4 * m)) (i * opts.blockSize) =
      blockData opts f (i * opts.blockSize) := by
  unfold blockData
  refine List.map_congr_left ?_
  intro t ht
  rw [List.mem_range] at ht
  unfold ch0v
  exact getD_take_eq f (4 * m) _ (by nlinarith)

/-- The all-channel emission buffer of a block whose window lies inside
the first `m` time samples is unchanged by truncating the frame to
`4 * m` wire elements. -/
theorem activeBuf_take (opts : Options) (f : List Nat) (i m : Nat)
    (h : (i + 1) * opts.blockSize ≤ m) :
    activeBuf opts (f.take (4 * m)) (i * opts.blockSize) =
      activeBuf opts f (i * opts.blockSize) := by
  unfold activeBuf
  refine List.map_congr_left ?_
  intro j hj
  rw [List.mem_range] at hj
  unfold fullDataAt
  have hq : j / 4 < opts.blockSize := Nat.div_lt_of_lt_mul (by omega)
  have hr : j % 4 < 4 := Nat.mod_lt _ (by norm_num)
  exact getD_take_eq f (4 * m) _ (by nlinarith)

/-! ## Claim theorems -/

/-- Claim C1: a block is active iff the number of samples whose
magnitude strictly exceeds the sample threshold is strictly greater
than `floor(block_size * block_threshold_pct / 100)`; a block whose
count equals that floor exactly is inactive.  (The product is computed
in 32-bit arithmetic; the hypothesis keeps it below `2^32`, which holds
for every percentage-valued threshold and realistic block size.) -/
theorem classify_strict (opts : Options) (f : List Nat) (d : Nat)
    (h : opts.blockSize * opts.blockThreshold < 4294967296) :
    (verdict opts (blockData opts f d) = true ↔
      countAbove opts (blockData opts f d) >
        opts.blockSize * opts.blockThreshold / 100) ∧
    (countAbove opts (blockData opts f d) =
        opts.blockSize * opts.blockThreshold / 100 →
      verdict opts (blockData opts f d) = false) := by
  constructor
  · simp [verdict, blockThresholdLimit, Nat.mod_eq_of_lt h]
  · intro he
    simp [verdict, blockThresholdLimit, Nat.mod_eq_of_lt h, he]

/-- Concrete instance of `classify_strict`: `block_size = 4`,
`block_threshold = 50`, and a block with exactly 2 samples over the
sample threshold (the floor is 2) is inactive. -/
theorem classify_strict_witness :
    optsC1.blockSize * optsC1.blockThreshold < 4294967296 ∧
    ((verdict optsC1 (blockData optsC1 frameC1 0) = true ↔
      countAbove optsC1 (blockData optsC1 frameC1 0) >
        optsC1.blockSize * optsC1.blockThreshold / 100) ∧
    (countAbove optsC1 (blockData optsC1 frameC1 0) =
        optsC1.blockSize * optsC1.blockThreshold / 100 →
      verdict optsC1 (blockData optsC1 frameC1 0) = false)) :=
  ⟨by decide, classify_strict optsC1 frameC1 0 (by decide)⟩

/-- Claim C3, counterexample: at I = Q = 255 (wire ushort `0xFFFF`) the
code returns `(128 + 128) mod 256 = 0`, not the claimed
`|255 - 127| + |255 - 127| = 256`, because of the `(uint8_t)` cast. -/
theorem mag_truncates_at_full_scale :
    mag 65535 = 0 ∧
    mag 65535 ≠ ((255 : Int) - 127).natAbs + ((255 : Int) - 127).natAbs := by
  constructor <;> decide

/-- Claim C3, amended: for a sample with 8-bit components I (low byte)
and Q (high byte), the magnitude estimator returns
`(|I - 127| + |Q - 127|) mod 256` — the L1 approximation with reference
constant 127, truncated to 8 bits by the `(uint8_t)` cast — as a pure
function of the sample. -/
theorem mag_is_l1_mod256 (I Q : Nat) (hI : I < 256) (hQ : Q < 256) :
    mag (Q * 256 + I) =
      (((I : Int) - 127).natAbs + ((Q : Int) - 127).natAbs) % 256 := by
  have h1 : (Q * 256 + I) % 65536 = Q * 256 + I := Nat.mod_eq_of_lt (by omega)
  have h2 : (Q * 256 + I) % 256 = I := by omega
  have h3 : (Q * 256 + I) / 256 = Q := by omega
  simp only [mag, h1, h2, h3]

/-- Concrete instance of `mag_is_l1_mod256` at I = 200, Q = 50. -/
theorem mag_is_l1_mod256_witness :
    (200 < 256 ∧ 50 < 256) ∧
    mag (50 * 256 + 200) =
      (((200 : Int) - 127).natAbs + ((50 : Int) - 127).natAbs) % 256 :=
  ⟨⟨by decide, by decide⟩, mag_is_l1_mod256 200 50 (by decide) (by decide)⟩

/-- Claim C4, counterexample: with auto mode on, `block_size = 1`, a
frame whose first block is active (magnitude 50) and whose second block
is inactive (magnitude 4): the second block is the trail-out block
leaving the ACTIVE state, yet the code folds its mean magnitude into
the estimate, ending with `avg = (0 + 4) / 2 = 2` instead of the
claimed unchanged 0. -/
theorem noise_floor_updated_while_triggered :
    optsC4.autoMode = true ∧
    verdict optsC4 (blockData optsC4 frameC4 0) = true ∧
    verdict optsC4 (blockData optsC4 frameC4 1) = false ∧
    (processFrame optsC4 (initState 0) frameC4).1.avg = 2 ∧
    (processFrame optsC4 (initState 0) frameC4).1.avg ≠ 0 := by
  refine ⟨by decide, by decide, by decide, by decide, by decide⟩

/-- Claim C4, amended: when auto mode is enabled the Noise Floor
Estimate is updated on every block whose verdict is inactive,
regardless of the trigger state (including the trail-out block that
leaves the ACTIVE state), computing
`avg = ((avg + floor(acc / block_size)) mod 2^32) / 2` in integer
arithmetic; on active blocks, and whenever auto mode is disabled, the
estimate is unchanged. -/
theorem noise_floor_update_rule (opts : Options) (f : List Nat) (n0 i : Nat)
    (st : RunState) :
    (stepBlock opts f n0 i st).1.avg =
      if verdict opts (blockData opts f (i * opts.blockSize)) = true then st.avg
      else if opts.autoMode then
        ((st.avg + accOf (blockData opts f (i * opts.blockSize)) / opts.blockSize)
          % 4294967296) / 2
      else st.avg :=
  stepBlock_avg_eq opts f n0 i st

/-- Claim C10: after each block iteration the persisted `triggered`
flag equals that block's verdict, for every incoming state; moreover
the blocks emitted by an iteration do not depend on the incoming state
at all, so the emission decision depends only on the current block's
own classification. -/
theorem triggered_tracks_verdict (opts : Options) (f : List Nat) (n0 i : Nat)
    (st st' : RunState) :
    (stepBlock opts f n0 i st).1.triggered =
      verdict opts (blockData opts f (i * opts.blockSize)) ∧
    (stepBlock opts f n0 i st).2 = (stepBlock opts f n0 i st').2 := by
  refine ⟨stepBlock_triggered_eq opts f n0 i st, ?_⟩
  rw [stepBlock_out_eq opts f n0 i st, stepBlock_out_eq opts f n0 i st']

/-- Claim C2, code evaluation: with padding enabled (the default), for
an input of K = 1 active block surrounded by inactive blocks the loop
emits exactly the 1 active block — not K + 2 = 3 blocks — because the
lead-in/trail-out emission code is commented out in the source
(`TODO: Reenable when working`). -/
theorem padding_blocks_not_emitted :
    optsC2.paddingBlocks = true ∧
    verdict optsC2 (blockData optsC2 frameC2 0) = false ∧
    verdict optsC2 (blockData optsC2 frameC2 1) = true ∧
    verdict optsC2 (blockData optsC2 frameC2 2) = false ∧
    (runFrames optsC2 (initState 0) [frameC2]).2 = [emitActive optsC2 frameC2 1] := by
  refine ⟨by decide, by decide, by decide, by decide, by decide⟩

/-- Claim C9, code evaluation: a frame holding exactly one whole block
(`block_size = 1`, 8 bytes of wire data) is consumed, yet `position`
remains 0 afterwards, because `position += n * 2` runs after
`n -= block_size` and so adds the bytes *remaining* in the frame (here
0), not the bytes consumed. -/
theorem position_not_advanced_by_consumed_block :
    frameC9.length / 4 = 1 ∧
    frameC9.length / 4 ≥ optsC9.blockSize ∧
    (processFrame optsC9 (initState 0) frameC9).1.position = 0 := by
  refine ⟨by decide, by decide, by decide⟩

/-- Claim C8, counterexample: with `block_size = 16384` the element
count `4 * block_size = 65536` wraps to 0 in the `uint16_t`
`num_elements` parameter of `emit_data`, so an emitted frame holds 0
elements instead of the claimed `N * block_size`. -/
theorem emitted_count_truncated :
    (emitActive optsC8 [] 0).length = 0 ∧ 4 * optsC8.blockSize = 65536 := by
  constructor
  · simp [emitActive, activeBuf, optsC8]
  · decide

/-- Claim C8, amended: every emitted frame holds
`(N * block_size) mod 2^16` 16-bit elements (the element count passes
through a `uint16_t` parameter); whenever `N * block_size < 65536` this
is exactly `N * block_size` elements for both the active-block and the
neutral-block emissions, never a truncated count. -/
theorem emitted_block_length (opts : Options) (f : List Nat) (d : Nat)
    (h : 4 * opts.blockSize < 65536) :
    (emitActive opts f d).length = 4 * opts.blockSize ∧
    (emitNull opts).length = opts.blockSize * 4 := by
  constructor
  · simp [emitActive, activeBuf, Nat.mod_eq_of_lt h]
  · have h4 : opts.blockSize * 4 < 65536 := by omega
    simp [emitNull, Nat.mod_eq_of_lt h4]

/-- Concrete instance of `emitted_block_length` at `block_size = 4`:
the emitted frame holds exactly 16 elements. -/
theorem emitted_block_length_witness :
    4 * optsC8w.blockSize < 65536 ∧
    ((emitActive optsC8w frameC1 0).length = 4 * optsC8w.blockSize ∧
     (emitNull optsC8w).length = optsC8w.blockSize * 4) :=
  ⟨by decide, emitted_block_length optsC8w frameC1 0 (by decide)⟩

/-- Claim C7: the verdict is computed only from channel 0 — two frames
agreeing on channel 0 get the same verdict for every block window — and
the emitted buffer for a block at element offset `d` carries, at
position `4 * c + k`, channel `k`'s sample at time `d + c`: every
channel's emitted data covers exactly the same sample offsets as
channel 0's. -/
theorem channel_alignment (opts : Options) (f g : List Nat) (d k c : Nat)
    (hch : ∀ t, ch0v f t = ch0v g t) (hk : k < 4) (hc : c < opts.blockSize) :
    verdict opts (blockData opts f d) = verdict opts (blockData opts g d) ∧
    (activeBuf opts f d).getD (4 * c + k) 0 = fullDataAt f k (d + c) := by
  constructor
  · have hbd : blockData opts f d = blockData opts g d := by
      unfold blockData
      exact List.map_congr_left (fun t _ => hch (d + t))
    rw [hbd]
  · have hlt : 4 * c + k < 4 * opts.blockSize := by omega
    have h1 : (4 * c + k) % 4 = k := by omega
    have h2 : (4 * c + k) / 4 = c := by omega
    rw [activeBuf, List.getD_eq_getElem?_getD, List.getElem?_map,
      List.getElem?_range hlt]
    simp [h1, h2]

/-- Concrete instance of `channel_alignment`: `block_size = 2`, channel
`k = 1`, in-block time `c = 1`, on a frame with distinct entries. -/
theorem channel_alignment_witness :
    ((∀ t, ch0v frameC7 t = ch0v frameC7 t) ∧ 1 < 4 ∧ 1 < optsC7.blockSize) ∧
    (verdict optsC7 (blockData optsC7 frameC7 0) =
       verdict optsC7 (blockData optsC7 frameC7 0) ∧
     (activeBuf optsC7 frameC7 0).getD (4 * 1 + 1) 0 = fullDataAt frameC7 1 (0 + 1)) :=
  ⟨⟨fun t => rfl, by decide, by decide⟩,
   channel_alignment optsC7 frameC7 frameC7 0 1 1 (fun t => rfl) (by decide) (by decide)⟩

/-- Claim C5: the configured block-count limit has no effect on
processing — two configurations differing only in `block_count` produce
the same final state and byte-identical emissions on every input. -/
theorem block_count_unused (opts : Options) (b1 b2 : Nat) (st : RunState)
    (frames : List (List Nat)) :
    runFrames { opts with blockCount := b1 } st frames =
      runFrames { opts with blockCount := b2 } st frames := rfl

/-- Simulation of two per-frame folds whose blocks agree: when every
processed block index yields the same classified data and the same
all-channel buffer, the two folds agree on the `triggered` flag, the
`avg` estimate and the emitted chunks (the `position` counter, which
depends on the frame length, is exempt). -/
theorem fold_components (opts : Options) (f g : List Nat) (n0 n0' : Nat)
    (idxs : List Nat)
    (hbd : ∀ i ∈ idxs,
      blockData opts f (i * opts.blockSize) = blockData opts g (i * opts.blockSize))
    (hab : ∀ i ∈ idxs,
      activeBuf opts f (i * opts.blockSize) = activeBuf opts g (i * opts.blockSize)) :
    ∀ (st st' : RunState) (o o' : List (List Nat)),
      st.triggered = st'.triggered → st.avg = st'.avg → o = o' →
      (idxs.foldl (fun pr i =>
          let r := stepBlock opts f n0 i pr.1
          (r.1, pr.2 ++ r.2)) (st, o)).1.triggered =
        (idxs.foldl (fun pr i =>
          let r := stepBlock opts g n0' i pr.1
          (r.1, pr.2 ++ r.2)) (st', o')).1.triggered ∧
      (idxs.foldl (fun pr i =>
          let r := stepBlock opts f n0 i pr.1
          (r.1, pr.2 ++ r.2)) (st, o)).1.avg =
        (idxs.foldl (fun pr i =>
          let r := stepBlock opts g n0' i pr.1
          (r.1, pr.2 ++ r.2)) (st', o')).1.avg ∧
      (idxs.foldl (fun pr i =>
          let r := stepBlock opts f n0 i pr.1
          (r.1, pr.2 ++ r.2)) (st, o)).2 =
        (idxs.foldl (fun pr i =>
          let r := stepBlock opts g n0' i pr.1
          (r.1, pr.2 ++ r.2)) (st', o')).2 := by
  induction idxs with
  | nil =>
    intro st st' o o' ht ha ho
    exact ⟨ht, ha, ho⟩
  | cons i rest ih =>
    intro st st' o o' ht ha ho
    simp only [List.foldl_cons]
    have hbdi := hbd i (List.mem_cons_self i rest)
    have habi := hab i (List.mem_cons_self i rest)
    refine ih (fun j hj => hbd j (List.mem_cons_of_mem i hj))
              (fun j hj => hab j (List.mem_cons_of_mem i hj))
              _ _ _ _ ?_ ?_ ?_
    · rw [stepBlock_triggered_eq, stepBlock_triggered_eq, hbdi]
    · rw [stepBlock_avg_eq, stepBlock_avg_eq, hbdi, ha]
    · rw [stepBlock_out_eq, stepBlock_out_eq, hbdi, ho]
      simp only [emitActive, habi]

/-- Claim C6: the remainder of fewer than `block_size` samples at the
tail of a frame is discarded — truncating a frame to its whole blocks
changes neither the classification state (`triggered`, `avg`) nor the
emitted chunks, and since the loop state carries no sample data, the
remainder is not carried over into the next frame's data. -/
theorem frame_tail_discarded (opts : Options) (st : RunState) (f : List Nat) :
    (processFrame opts st (truncFrame opts.blockSize f)).1.triggered =
      (processFrame opts st f).1.triggered ∧
    (processFrame opts st (truncFrame opts.blockSize f)).1.avg =
      (processFrame opts st f).1.avg ∧
    (processFrame opts st (truncFrame opts.blockSize f)).2 =
      (processFrame opts st f).2 := by
  have hle1 : opts.blockSize * (f.length / 4 / opts.blockSize) ≤ f.length / 4 := by
    rw [Nat.mul_comm]
    exact Nat.div_mul_le_self _ _
  have h44 : 4 * (f.length / 4) ≤ f.length := by
    rw [Nat.mul_comm]
    exact Nat.div_mul_le_self _ _
  have hlen : (truncFrame opts.blockSize f).length =
      4 * (opts.blockSize * (f.length / 4 / opts.blockSize)) := by
    have h4m : 4 * (opts.blockSize * (f.length / 4 / opts.blockSize)) ≤ f.length :=
      le_trans (Nat.mul_le_mul (Nat.le_refl 4) hle1) h44
    simp [truncFrame]
    omega
  have hn0' : (truncFrame opts.blockSize f).length / 4 =
      opts.blockSize * (f.length / 4 / opts.blockSize) := by
    rw [hlen]
    exact Nat.mul_div_cancel_left _ (by norm_num)
  have hnb : opts.blockSize * (f.length / 4 / opts.blockSize) / opts.blockSize =
      f.length / 4 / opts.blockSize := by
    rcases Nat.eq_zero_or_pos opts.blockSize with h0 | hpos
    · rw [h0]
      simp
    · exact Nat.mul_div_cancel_left _ hpos
  simp only [processFrame, hn0', hnb]
  refine fold_components opts (truncFrame opts.blockSize f) f
      (opts.blockSize * (f.length / 4 / opts.blockSize)) (f.length / 4)
      (List.range (f.length / 4 / opts.blockSize)) ?_ ?_ st st [] [] rfl rfl rfl
  · intro i hi
    rw [List.mem_range] at hi
    have hm : (i + 1) * opts.blockSize ≤
        opts.blockSize * (f.length / 4 / opts.blockSize) := by
      rw [Nat.mul_comm opts.blockSize]
      exact Nat.mul_le_mul_right _ hi
    exact blockData_take opts f i _ hm
  · intro i hi
    rw [List.mem_range] at hi
    have hm : (i + 1) * opts.blockSize ≤
        opts.blockSize * (f.length / 4 / opts.blockSize) := by
      rw [Nat.mul_comm opts.blockSize]
      exact Nat.mul_le_mul_right _ hi
    exact activeBuf_take opts f i _ hm

/-- Counting over a constant list where the predicate holds counts the
whole length. -/
theorem countP_replicate_true (p : Nat → Bool) (n a : Nat) (h : p a = true) :
    (List.replicate n a).countP p = n := by
  induction n with
  | zero => simp
  | succ n ih => simp [List.replicate_succ, List.countP_cons, ih, h]

/-- The block at offset 0 of the all-`32689` frame is the constant
block of `block_size` copies of `32689`. -/
theorem blockData_optsC1w :
    blockData optsC1w frameC1w 0 = List.replicate 67108864 32689 := by
  unfold blockData
  have h1 : ∀ t ∈ List.range optsC1w.blockSize, ch0v frameC1w (0 + t) = 32689 := by
    intro t ht
    rw [List.mem_range] at ht
    have ht' : t < 67108864 := by
      have hbs : optsC1w.blockSize = 67108864 := rfl
      omega
    unfold ch0v frameC1w
    rw [List.getD_eq_getElem?_getD, List.getElem?_replicate, if_pos (by omega)]
    rfl
  have h2 : (List.range optsC1w.blockSize).map (fun t => ch0v frameC1w (0 + t)) =
      (List.range optsC1w.blockSize).map (fun t => 32689) :=
    List.map_congr_left h1
  rw [h2, List.map_const', List.length_range]
  rfl

/-- Claim C1, counterexample: with `block_size = 67108864` and
`block_threshold = 100`, the 32-bit product wraps
(`6710886400 mod 2^32 = 2415919104`), so the computed limit is
`24159191` instead of `floor(block_size * T / 100) = 67108864`; a block
in which every sample exceeds the sample threshold has
`count = 67108864`, which the code classifies active although the count
is not strictly greater than the claimed floor. -/
theorem classify_wrap_cex :
    verdict optsC1w (blockData optsC1w frameC1w 0) = true ∧
    ¬ (countAbove optsC1w (blockData optsC1w frameC1w 0) >
        optsC1w.blockSize * optsC1w.blockThreshold / 100) := by
  have hc : countAbove optsC1w (blockData optsC1w frameC1w 0) = 67108864 := by
    rw [blockData_optsC1w]
    unfold countAbove
    exact countP_replicate_true _ _ _ (by decide)
  constructor
  · unfold verdict
    rw [hc]
    decide
  · rw [hc]
    decide

/-- Claim C1, amended: a block is active iff the number of samples
whose magnitude strictly exceeds the sample threshold is strictly
greater than `floor((block_size * block_threshold_pct mod 2^32) / 100)`
— the product is computed in 32-bit arithmetic, and agrees with
`floor(block_size * T / 100)` whenever `block_size * T < 2^32` — and a
block whose count equals that limit exactly is classified inactive. -/
theorem classify_strict_wrapped (opts : Options) (f : List Nat) (d : Nat) :
    (verdict opts (blockData opts f d) = true ↔
      countAbove opts (blockData opts f d) >
        opts.blockSize * opts.blockThreshold % 4294967296 / 100) ∧
    (countAbove opts (blockData opts f d) =
        opts.blockSize * opts.blockThreshold % 4294967296 / 100 →
      verdict opts (blockData opts f d) = false) := by
  constructor
  · simp [verdict, blockThresholdLimit]
  · intro he
    simp [verdict, blockThresholdLimit, he]
